import Mathlib

/-!
Shallow embedding of the divus-whatsapp gateway server (the current server
module in `src/server.js`, second document: the `sendToWebhook` dispatcher,
the `authenticate` middleware, and the route handlers for `start-session`,
`qrcode`, `status`, `logout` and `sendText`).

The process-wide mutable registries (`clients`, `qrCodes`, `webhooks`,
JavaScript `Map`s keyed by the session id string) are modelled as
association lists.  Calls into the external wppconnect engine
(`isConnected`, `logout`, `close`, `sendText`, `wppconnect.create`) are
modelled by oracle parameters carrying the result the engine would produce
(`ERes`: a value, or a thrown error / timeout rejection), and every handler
additionally returns the list of engine capabilities it invoked, so that
"never launches a second engine instance" and "never invokes sendText"
are statable.  Asynchronous pieces of `start-session` (the `catchQR` and
`statusFind` callbacks, the resolution/rejection continuations attached to
`createClientPromise`, and the 500 ms polling loop awaiting a QR code) are
modelled as explicit events applied to the request-local variables and the
global state.
-/

namespace DivusWhatsapp

/-- Handle to a live automation-engine client; its internals are irrelevant
to the gateway, so it is modelled as a numeric id. -/
abbrev Client := Nat

/-- A JavaScript `Map` with string keys, modelled as an association list. -/
abbrev SMap (α : Type) := List (String × α)

/-- `Map.get` — first binding for the key, if any. -/
def mapGet {α : Type} (m : SMap α) (k : String) : Option α :=
  match m with
  | [] => none
  | (k', v) :: rest => if k' = k then some v else mapGet rest k

/-- `Map.set` — overwrite the first binding for the key, or append. -/
def mapSet {α : Type} (m : SMap α) (k : String) (v : α) : SMap α :=
  match m with
  | [] => [(k, v)]
  | (k', v') :: rest => if k' = k then (k, v) :: rest else (k', v') :: mapSet rest k v

/-- `Map.delete` — remove every binding for the key. -/
def mapDel {α : Type} (m : SMap α) (k : String) : SMap α :=
  match m with
  | [] => []
  | (k', v') :: rest => if k' = k then mapDel rest k else (k', v') :: mapDel rest k

/-- `Map.has`. -/
def mapHas {α : Type} (m : SMap α) (k : String) : Bool :=
  (mapGet m k).isSome

theorem mapGet_set_self {α : Type} (m : SMap α) (k : String) (v : α) :
    mapGet (mapSet m k v) k = some v := by
  induction m with
  | nil => simp [mapSet, mapGet]
  | cons hd tl ih =>
      obtain ⟨k', v'⟩ := hd
      by_cases h : k' = k
      · simp [mapSet, h, mapGet]
      · simp [mapSet, h, mapGet, ih]

theorem mapGet_del_self {α : Type} (m : SMap α) (k : String) :
    mapGet (mapDel m k) k = none := by
  induction m with
  | nil => simp [mapDel, mapGet]
  | cons hd tl ih =>
      obtain ⟨k', v'⟩ := hd
      by_cases h : k' = k
      · simp [mapDel, h, ih]
      · simp [mapDel, h, mapGet, ih]

/-- The result of awaiting an engine call: a value, or a thrown error
(which also covers a `Promise.race` timeout rejection). -/
inductive ERes (α : Type) where
  | ok (a : α)
  | err (msg : String)
deriving DecidableEq, Repr

/-- An invocation of one of the external engine's capabilities, recorded so
that theorems can speak about which engine methods a handler called. -/
inductive EngineCall where
  | createEngine (session : String)
  | isConnectedQ (session : String)
  | logoutEngine (session : String)
  | closeEngine (session : String)
  | sendTextEngine (session : String) (phoneNumber : String) (message : String)
deriving DecidableEq, Repr

/-- Number of `wppconnect.create` launches in a call log. -/
def countCreate (calls : List EngineCall) : Nat :=
  (calls.filter fun c =>
    match c with
    | .createEngine _ => true
    | _ => false).length

/-- The JSON body and HTTP status code of a response.  Only the fields
examined by some verified property are kept; fields no property reads
(echoed webhook, stack-trace details, memory statistics, session echo,
timestamps) are omitted. -/
structure Resp where
  code : Nat
  success : Option Bool
  status : Option String
  connected : Option Bool
  qrCode : Option (Option String)
  error : Option String
  message : Option String
deriving DecidableEq, Repr

/-- The QR payload a response actually carries (`none` both when the field
is absent and when it is JSON `null`). -/
def respQrPayload (r : Resp) : Option String :=
  match r.qrCode with
  | some (some q) => some q
  | _ => none

/-- The process-wide registries: `clients`, `qrCodes` and `webhooks`. -/
structure ServerState where
  clients : SMap Client
  qrCodes : SMap String
  webhooks : SMap String
deriving DecidableEq, Repr

def emptyState : ServerState :=
  { clients := [], qrCodes := [], webhooks := [] }

/-! ## Webhook dispatcher (`sendToWebhook`, src/server.js lines 433-476) -/

/-- Outcome of one `fetch` POST attempt: the response arrived with a
success status (`response.ok`), arrived with a non-success status, or the
attempt threw (network error, or the 10 s `AbortController` timeout). -/
inductive AttemptOutcome where
  | okResp
  | badStatus (code : Nat)
  | failExc (msg : String)
deriving DecidableEq, Repr

/-- `response.ok` after folding the `try`/`catch`: only a received
success-status response stops the retry loop; a bad status and a thrown
error both fall through to the retry logic. -/
def attemptDelivered : AttemptOutcome → Bool
  | .okResp => true
  | _ => false

/-- Observable outcome of one `sendToWebhook` run: how many POST attempts
were made, the waits (ms) inserted between consecutive attempts, whether a
delivery succeeded, and whether the permanent-failure log line was hit.
The function always returns (the JS function never throws to its caller). -/
structure DispatchResult where
  attempts : Nat
  delays : List Nat
  delivered : Bool
  permanentFailure : Bool
deriving DecidableEq, Repr

/-- The `for (let attempt = 1; attempt <= retries; attempt++)` loop.
`remaining` is the number of attempts still allowed including the current
one (so `remaining = 1` means this is the last attempt and
`attempt < retries` is false: no wait is inserted after it). -/
def webhookLoop (results : Nat → AttemptOutcome) (attempt remaining count : Nat)
    (delays : List Nat) : DispatchResult :=
  match remaining with
  | 0 => { attempts := count, delays := delays, delivered := false, permanentFailure := true }
  | Nat.succ r =>
      if attemptDelivered (results attempt) then
        { attempts := count + 1, delays := delays, delivered := true, permanentFailure := false }
      else if r = 0 then
        webhookLoop results (attempt + 1) r (count + 1) delays
      else
        webhookLoop results (attempt + 1) r (count + 1) (delays ++ [1000 * 2 ^ (attempt - 1)])

/-- `sendToWebhook(session, data, retries = 3)`: no registered URL is a
no-op (zero attempts); otherwise run the attempt loop.  The payload
contents do not influence control flow and are omitted. -/
def sendToWebhook (webhooks : SMap String) (session : String)
    (results : Nat → AttemptOutcome) (retries : Nat) : DispatchResult :=
  match mapGet webhooks session with
  | none => { attempts := 0, delays := [], delivered := false, permanentFailure := false }
  | some _ => webhookLoop results 1 retries 0 []

/-! ## `GET /api/:session/status` (lines 891-925) -/

/-- The status handler.  `isConn` is the settled result of
`Promise.race([client.isConnected(), 5s timeout])`; a timeout surfaces as
`ERes.err "Timeout"`, a thrown engine error as `ERes.err msg`. -/
def statusHandler (st : ServerState) (session : String) (isConn : ERes Bool) :
    Resp × ServerState × List EngineCall :=
  match mapGet st.clients session with
  | none =>
      ({ code := 200, success := some false, status := some "notLogged",
         connected := some false, qrCode := none, error := none, message := none },
       st, [])
  | some _ =>
      match isConn with
      | .ok b =>
          ({ code := 200, success := some true,
             status := some (if b then "connected" else "notLogged"),
             connected := some b, qrCode := none, error := none, message := none },
           st, [.isConnectedQ session])
      | .err m =>
          ({ code := 200, success := some false, status := some "error",
             connected := some false, qrCode := none, error := some m, message := none },
           st, [.isConnectedQ session])

/-! ## `POST /api/:session/logout` (lines 928-968) -/

/-- The logout handler.  `logoutRes` is the settled result of
`Promise.race([client.logout(), 5s timeout])` (timeout rejects with
"Logout timeout"), `closeRes` of `client.close()`.  On any rejection the
`catch` block still deletes the session from both registries
("força remoção mesmo com erro"). -/
def logoutHandler (st : ServerState) (session : String)
    (logoutRes : ERes Unit) (closeRes : ERes Unit) :
    Resp × ServerState × List EngineCall :=
  match mapGet st.clients session with
  | none =>
      ({ code := 404, success := some false, status := none, connected := none,
         qrCode := none, error := some ("Session not found"), message := none },
       st, [])
  | some _ =>
      match logoutRes with
      | .err m =>
          ({ code := 500, success := some false, status := none, connected := none,
             qrCode := none, error := some m, message := none },
           { clients := mapDel st.clients session, qrCodes := mapDel st.qrCodes session,
             webhooks := st.webhooks },
           [.logoutEngine session])
      | .ok _ =>
          match closeRes with
          | .err m =>
              ({ code := 500, success := some false, status := none, connected := none,
                 qrCode := none, error := some m, message := none },
               { clients := mapDel st.clients session, qrCodes := mapDel st.qrCodes session,
                 webhooks := st.webhooks },
               [.logoutEngine session, .closeEngine session])
          | .ok _ =>
              ({ code := 200, success := some true, status := none, connected := none,
                 qrCode := none, error := none, message := some ("Logged out successfully") },
               { clients := mapDel st.clients session, qrCodes := mapDel st.qrCodes session,
                 webhooks := st.webhooks },
               [.logoutEngine session, .closeEngine session])

/-! ## `POST /api/:session/sendText` (lines 971-1020) -/

/-- `phone.includes('@c.us')`. -/
def containsCUs (p : String) : Bool :=
  decide (2 ≤ (p.splitOn ("@c.us")).length)

/-- The sendText handler.  `phone` and `message` are the request-body
fields, `none` when absent (JS `undefined`); the empty string is falsy in
JS, so `!phone || !message` rejects it too.  `isConn` and `sendRes` are
the settled results of `client.isConnected()` and
`client.sendText(phoneNumber, message)`. -/
def sendTextHandler (st : ServerState) (session : String)
    (phone message : Option String) (isConn : ERes Bool) (sendRes : ERes Unit) :
    Resp × ServerState × List EngineCall :=
  match phone, message with
  | some p, some msgBody =>
      if p = "" ∨ msgBody = "" then
        ({ code := 400, success := some false, status := none, connected := none,
           qrCode := none, error := some ("Missing phone or message"), message := none },
         st, [])
      else
        match mapGet st.clients session with
        | none =>
            ({ code := 404, success := some false, status := none, connected := none,
               qrCode := none, error := some ("Session not found"), message := none },
             st, [])
        | some _ =>
            match isConn with
            | .err m =>
                ({ code := 500, success := some false, status := none, connected := none,
                   qrCode := none, error := some m, message := none },
                 st, [.isConnectedQ session])
            | .ok false =>
                ({ code := 400, success := some false, status := none, connected := none,
                   qrCode := none, error := some ("Session not connected"), message := none },
                 st, [.isConnectedQ session])
            | .ok true =>
                let phoneNumber := if containsCUs p then p else p ++ "@c.us"
                match sendRes with
                | .ok _ =>
                    ({ code := 200, success := some true, status := none, connected := none,
                       qrCode := none, error := none, message := some ("Sent successfully") },
                     st, [.isConnectedQ session, .sendTextEngine session phoneNumber msgBody])
                | .err m =>
                    ({ code := 500, success := some false, status := none, connected := none,
                       qrCode := none, error := some m, message := none },
                     st, [.isConnectedQ session, .sendTextEngine session phoneNumber msgBody])
  | _, _ =>
      ({ code := 400, success := some false, status := none, connected := none,
         qrCode := none, error := some ("Missing phone or message"), message := none },
       st, [])

/-! ## `GET /api/:session/qrcode` (lines 842-888) -/

/-- The tail of the qrcode handler, reached when no connected client
short-circuited: answer from the QR cache, 404 when empty. -/
def qrAnswer (qr : Option String) : Resp :=
  match qr with
  | none =>
      { code := 404, success := some false, status := none, connected := some false,
        qrCode := none, error := some ("QR Code not available"),
        message := some ("Session may be connected or not started") }
  | some q =>
      { code := 200, success := some true, status := some "qrcode",
        connected := some false, qrCode := some (some q), error := none, message := none }

/-- The qrcode handler.  When a client handle exists, `isConnected()` is
tried first; a `true` answer short-circuits with an
"already connected" body, while `false` — and, per the `catch` that only
logs, a thrown error too — falls through to the QR cache. -/
def qrcodeHandler (st : ServerState) (session : String) (isConn : ERes Bool) :
    Resp × ServerState × List EngineCall :=
  let qr := mapGet st.qrCodes session
  match mapGet st.clients session with
  | some _ =>
      match isConn with
      | .ok true =>
          ({ code := 200, success := some true, status := some "connected",
             connected := some true, qrCode := some none, error := none,
             message := some ("Session already connected") },
           st, [.isConnectedQ session])
      | .ok false => (qrAnswer qr, st, [.isConnectedQ session])
      | .err _ => (qrAnswer qr, st, [.isConnectedQ session])
  | none => (qrAnswer qr, st, [])

/-! ## `POST /api/:session/start-session` (lines 518-839)

The handler interleaves with the engine: `wppconnect.create` is launched
and runs in the background; its `catchQR`/`statusFind` callbacks and the
`.then`/`.catch` continuations fire asynchronously, while the handler
itself only polls the request-local `qrCode`/`createError` variables.  We
split it into a synchronous phase A (the duplicate-session guard up to and
including the `create` launch), explicit engine events (`CreateEv`), and
the bounded QR polling loop. -/

/-- Result of phase A: an early response from the already-exists guard, or
a launched creation (with the state after webhook registration and the
engine calls made so far, `createEngine` included). -/
inductive StartOutcome where
  | responded (resp : Resp) (st : ServerState) (calls : List EngineCall)
  | launched (st : ServerState) (calls : List EngineCall)
deriving DecidableEq, Repr

def outcomeState : StartOutcome → ServerState
  | .responded _ st _ => st
  | .launched st _ => st

def outcomeCalls : StartOutcome → List EngineCall
  | .responded _ _ calls => calls
  | .launched _ calls => calls

def isLaunched : StartOutcome → Bool
  | .responded _ _ _ => false
  | .launched _ _ => true

/-- `if (webhook) webhooks.set(session, webhook)` (line 690). -/
def registerWebhook (st : ServerState) (session : String) (webhook : Option String) :
    ServerState :=
  match webhook with
  | some w => { st with webhooks := mapSet st.webhooks session w }
  | none => st

/-- Phase A of `start-session`: the `clients.has(session)` guard (lines
526-560) followed — when no early response fires — by the
`wppconnect.create` launch and webhook registration.  `isConn` is the
result of the guard's `client.isConnected()` probe (unused when the
registry has no entry); a thrown probe takes the stale-session branch:
best-effort `close`, delete from both registries, fall through to a fresh
creation. -/
def startSessionPhaseA (st : ServerState) (session : String) (webhook : Option String)
    (isConn : ERes Bool) : StartOutcome :=
  match mapGet st.clients session with
  | some _ =>
      match isConn with
      | .ok true =>
          .responded
            { code := 200, success := some true, status := some "connected",
              connected := none, qrCode := some none, error := none,
              message := some ("Session already connected") }
            st [.isConnectedQ session]
      | .ok false =>
          match mapGet st.qrCodes session with
          | some q =>
              .responded
                { code := 200, success := some true, status := some "qrcode",
                  connected := none, qrCode := some (some q), error := none,
                  message := some ("Session exists with QR code") }
                st [.isConnectedQ session]
          | none =>
              -- isConnected returned false and no QR is cached: the guard's
              -- if/else-if both miss and control falls through to a fresh
              -- creation without touching the old registry entry.
              .launched (registerWebhook st session webhook)
                [.isConnectedQ session, .createEngine session]
      | .err _ =>
          let st' : ServerState :=
            { clients := mapDel st.clients session, qrCodes := mapDel st.qrCodes session,
              webhooks := st.webhooks }
          .launched (registerWebhook st' session webhook)
            [.isConnectedQ session, .closeEngine session, .createEngine session]
  | none => .launched (registerWebhook st session webhook) [.createEngine session]

/-- The request-local variables of one `start-session` invocation:
`qrCode`, `sessionStatus`, `clientCreated`, `createError`. -/
structure ReqLocal where
  qrCode : Option String
  sessionStatus : String
  clientCreated : Bool
  createError : Option String
deriving DecidableEq, Repr

def initialLocal : ReqLocal :=
  { qrCode := none, sessionStatus := "initializing", clientCreated := false,
    createError := none }

/-- An asynchronous event fired by the in-flight `wppconnect.create`: the
`catchQR` callback, the `statusFind` callback, the resolution continuation
(`.then`: `clients.set`, listener registration) or the rejection
continuation (`.catch`: purge both registries). -/
inductive CreateEv where
  | catchQR (qr : String)
  | statusFind (status : String)
  | resolve (handle : Client)
  | reject (msg : String)
deriving DecidableEq, Repr

/-- Apply one engine event to the request-local variables and the global
registries, exactly as the corresponding callback in the source does. -/
def applyEv (session : String) (lsst : ReqLocal × ServerState) (ev : CreateEv) :
    ReqLocal × ServerState :=
  match ev with
  | .catchQR qr =>
      ({ lsst.1 with qrCode := some qr, sessionStatus := "qrcode" },
       { lsst.2 with qrCodes := mapSet lsst.2.qrCodes session qr })
  | .statusFind status =>
      if status = "authenticated" ∨ status = "isLogged" then
        ({ lsst.1 with sessionStatus := "connected" },
         { lsst.2 with qrCodes := mapDel lsst.2.qrCodes session })
      else
        ({ lsst.1 with sessionStatus := status }, lsst.2)
  | .resolve handle =>
      ({ lsst.1 with clientCreated := true },
       { lsst.2 with clients := mapSet lsst.2.clients session handle })
  | .reject msg =>
      ({ lsst.1 with createError := some msg },
       { clients := mapDel lsst.2.clients session,
         qrCodes := mapDel lsst.2.qrCodes session,
         webhooks := lsst.2.webhooks })

def qrTimeoutMs : Nat := 30000

def qrPollMs : Nat := 500

/-- Maximum number of 500 ms sleeps of the QR wait loop (30 s ceiling). -/
def qrMaxPolls : Nat := qrTimeoutMs / qrPollMs

/-- The `while (!qrCode && !createError && elapsed < 30000) sleep(500)`
loop.  Time is discrete: one fuel unit is one 500 ms sleep, and
`events tick` are the engine events delivered during that sleep.  Returns
the number of sleeps performed and the final local/global state. -/
def qrWaitLoop (session : String) (events : Nat → List CreateEv)
    (tick fuel : Nat) (lsst : ReqLocal × ServerState) :
    Nat × ReqLocal × ServerState :=
  match fuel with
  | 0 => (tick, lsst)
  | Nat.succ f =>
      if lsst.1.qrCode.isSome || lsst.1.createError.isSome then (tick, lsst)
      else qrWaitLoop session events (tick + 1) f (List.foldl (applyEv session) lsst (events tick))

/-- The whole `start-session` handler for one request, with the engine's
asynchronous behaviour given by `events`.  Returns the response, the
global state when the response is sent, the engine calls made by phase A,
and the number of 500 ms sleeps performed.  Events delivered after the
response (e.g. a late resolution) are applied separately with `applyEv`. -/
def startSessionExec (st : ServerState) (session : String) (webhook : Option String)
    (waitQrCode : Bool) (isConn : ERes Bool) (events : Nat → List CreateEv) :
    Resp × ServerState × List EngineCall × Nat :=
  match startSessionPhaseA st session webhook isConn with
  | .responded resp st' calls => (resp, st', calls, 0)
  | .launched st' calls =>
      if waitQrCode then
        let r := qrWaitLoop session events 0 qrMaxPolls (initialLocal, st')
        match r.2.1.createError with
        | some m =>
            -- `throw new Error(createError.message)` → catch: purge, 500.
            ({ code := 500, success := some false, status := none, connected := none,
               qrCode := none, error := some m, message := none },
             { clients := mapDel r.2.2.clients session,
               qrCodes := mapDel r.2.2.qrCodes session, webhooks := r.2.2.webhooks },
             calls, r.1)
        | none =>
            match r.2.1.qrCode with
            | some q =>
                ({ code := 200, success := some true, status := some r.2.1.sessionStatus,
                   connected := none, qrCode := some (some q), error := none,
                   message := some ("QR Code ready - scan to connect") },
                 r.2.2, calls, r.1)
            | none =>
                -- `throw new Error('QR code generation timeout...')` → catch.
                ({ code := 500, success := some false, status := none, connected := none,
                   qrCode := none,
                   error := some ("QR code generation timeout - the server may be overloaded, please try again"),
                   message := none },
                 { clients := mapDel r.2.2.clients session,
                   qrCodes := mapDel r.2.2.qrCodes session, webhooks := r.2.2.webhooks },
                 calls, r.1)
      else
        ({ code := 200, success := some true, status := some (initialLocal.sessionStatus),
           connected := none, qrCode := some none, error := none,
           message := some ("Session starting") },
         st', calls, 0)

/-! ## Route registration and the `authenticate` middleware
(lines 479-487 and the `app.get`/`app.post`/`app.delete` registrations) -/

/-- One express route registration.  The path is the pattern split on
slashes (so the `:session` parameter is one segment); `usesAuthenticate`
records whether the `authenticate` middleware is in its chain. -/
structure Route where
  method : String
  path : List String
  usesAuthenticate : Bool
deriving DecidableEq, Repr

/-- A route is session-scoped when its pattern binds the `:session`
parameter. -/
def sessionScoped (r : Route) : Bool :=
  r.path.contains (":session")

def routeRoot : Route :=
  { method := "GET", path := [], usesAuthenticate := false }

def routeHealth : Route :=
  { method := "GET", path := ["health"], usesAuthenticate := false }

/-- Every route the server registers, in registration order. -/
def routes : List Route :=
  [routeRoot,
   routeHealth,
   { method := "POST", path := ["api", ":session", "start-session"], usesAuthenticate := true },
   { method := "GET", path := ["api", ":session", "qrcode"], usesAuthenticate := true },
   { method := "GET", path := ["api", ":session", "status"], usesAuthenticate := true },
   { method := "POST", path := ["api", ":session", "logout"], usesAuthenticate := true },
   { method := "POST", path := ["api", ":session", "sendText"], usesAuthenticate := true },
   { method := "POST", path := ["api", ":session", "send-image"], usesAuthenticate := true },
   { method := "POST", path := ["api", ":session", "send-file"], usesAuthenticate := true },
   { method := "POST", path := ["api", ":session", "send-voice"], usesAuthenticate := true },
   { method := "POST", path := ["api", ":session", "send-video"], usesAuthenticate := true },
   { method := "GET", path := ["api", ":session", "get-messages", ":phone"], usesAuthenticate := true },
   { method := "GET", path := ["api", ":session", "all-messages-in-chat", ":phone"], usesAuthenticate := true },
   { method := "GET", path := ["api", ":session", "load-messages-in-chat", ":phone"], usesAuthenticate := true },
   { method := "POST", path := ["api", ":session", "webhook"], usesAuthenticate := true },
   { method := "DELETE", path := ["api", ":session", "webhook"], usesAuthenticate := true },
   { method := "GET", path := ["api", "sessions"], usesAuthenticate := true }]

/-- The `authenticate` middleware: `key` is the credential extracted from
the authorization (Bearer-stripped) or x-api-key header, `none` when
neither header is present.  `!key || key !== API_KEY` → 401. -/
def authPasses (key : Option String) (apiKey : String) : Bool :=
  match key with
  | none => false
  | some k => if k = "" then false else if k = apiKey then true else false

/-- Whether a request reaches the route's handler: routes registered with
`authenticate` require the credential check to pass, the rest always
dispatch. -/
def handlerRuns (r : Route) (key : Option String) (apiKey : String) : Bool :=
  if r.usesAuthenticate then authPasses key apiKey else true

/-- `GET /` (lines 492-501): `res.json(...)` → 200, body
`{status: 'online', sessions, message, timestamp, ...}` (only the fields a
property reads are kept). -/
def rootHandler : Resp :=
  { code := 200, success := none, status := some "online", connected := none,
    qrCode := none, error := none,
    message := some ("WPPConnect Server - Divus Legal") }

/-- `GET /health` (lines 503-515): `res.status(200).json(...)`, body
`{status: 'healthy', uptime, sessions, memory, ...}`. -/
def healthHandler : Resp :=
  { code := 200, success := none, status := some "healthy", connected := none,
    qrCode := none, error := none, message := none }

/-! ## Helper lemmas -/

/-- When the QR cache has no entry for the session, the qrcode endpoint
never hands out a QR payload, whatever the connectivity probe says. -/
theorem qrcodeHandler_no_cached (st : ServerState) (session : String) (isConn : ERes Bool)
    (h : mapGet st.qrCodes session = none) :
    respQrPayload (qrcodeHandler st session isConn).1 = none := by
  unfold qrcodeHandler
  rw [h]
  cases mapGet st.clients session with
  | none => simp [qrAnswer, respQrPayload]
  | some c =>
      cases isConn with
      | ok b => cases b <;> simp [qrAnswer, respQrPayload]
      | err m => simp [qrAnswer, respQrPayload]

/-- A wait-loop run over a window in which the engine delivers no event
performs one sleep per fuel unit and changes nothing. -/
theorem qrWaitLoop_quiet (session : String) (events : Nat → List CreateEv) (fuel : Nat) :
    ∀ (tick : Nat) (ls : ReqLocal) (st : ServerState),
      ls.qrCode = none → ls.createError = none →
      (∀ k, tick ≤ k → k < tick + fuel → events k = []) →
      qrWaitLoop session events tick fuel (ls, st) = (tick + fuel, ls, st) := by
  induction fuel with
  | zero =>
      intro tick ls st hq he hquiet
      simp [qrWaitLoop]
  | succ n ih =>
      intro tick ls st hq he hquiet
      have hev : events tick = [] := hquiet tick (Nat.le_refl _) (by omega)
      have harith : tick + 1 + n = tick + (n + 1) := by omega
      simp only [qrWaitLoop, hq, he, Option.isSome_none, Bool.or_self, Bool.false_eq_true,
    if_false, hev, List.foldl_nil]
      rw [ih (tick + 1) ls st hq he (fun k h1 h2 => hquiet k (by omega) (by omega)), harith]

/-! ## Claims -/

/-- Claim C2: for a registered webhook destination whose delivery always
fails (non-success status, thrown network error, or the 10 s per-attempt
timeout), `sendToWebhook` makes exactly 3 POST attempts, waits
`1000 * 2 ^ (attempt - 1)` ms after each attempt except the last (so the
inter-attempt delays are 1 s and 2 s), hits the permanent-failure log, and
returns without propagating any error (the model is a total function into
`DispatchResult`). -/
theorem webhook_retry_exhaustion (webhooks : SMap String) (session url : String)
    (results : Nat → AttemptOutcome)
    (hurl : mapGet webhooks session = some url)
    (hfail : ∀ a, attemptDelivered (results a) = false) :
    sendToWebhook webhooks session results 3 =
      { attempts := 3, delays := [1000 * 2 ^ 0, 1000 * 2 ^ 1], delivered := false,
        permanentFailure := true } := by
  unfold sendToWebhook
  rw [hurl]
  simp [webhookLoop, hfail]

/-- Witness for C2: a concrete always-failing destination exhausts the
3 attempts with delays 1000 ms and 2000 ms. -/
theorem webhook_retry_exhaustion_witness :
    sendToWebhook [(("s1"), ("http://hook.example"))] ("s1")
      (fun _ => AttemptOutcome.failExc ("connection refused")) 3 =
      { attempts := 3, delays := [1000, 2000], delivered := false,
        permanentFailure := true } :=
  webhook_retry_exhaustion _ ("s1") ("http://hook.example") _ (by decide) (fun _ => rfl)

/-- Claim C3: on a session present in the registry, logout removes the
session from the client registry and the QR cache in every branch —
logout ok/thrown/timeout, close ok/thrown — so a subsequent status query
answers `notLogged`, not connected. -/
theorem logout_always_purges (st : ServerState) (session : String) (c : Client)
    (logoutRes closeRes : ERes Unit) (isConn : ERes Bool)
    (hc : mapGet st.clients session = some c) :
    mapGet (logoutHandler st session logoutRes closeRes).2.1.clients session = none ∧
    mapGet (logoutHandler st session logoutRes closeRes).2.1.qrCodes session = none ∧
    (statusHandler (logoutHandler st session logoutRes closeRes).2.1 session isConn).1 =
      { code := 200, success := some false, status := some "notLogged",
        connected := some false, qrCode := none, error := none, message := none } := by
  cases logoutRes <;> cases closeRes <;>
    simp [logoutHandler, hc, statusHandler, mapGet_del_self]

/-- Concrete state for the C3 witness: one registered session with a
cached QR. -/
def wstC3 : ServerState :=
  { clients := [(("s1"), 7)], qrCodes := [(("s1"), ("QR-DATA"))], webhooks := [] }

/-- Witness for C3: a registered session whose logout times out and whose
close succeeds is still purged and subsequently reports `notLogged`. -/
theorem logout_always_purges_witness :
    mapGet (logoutHandler wstC3 ("s1") (.err ("Logout timeout")) (.ok ())).2.1.clients ("s1") = none ∧
    mapGet (logoutHandler wstC3 ("s1") (.err ("Logout timeout")) (.ok ())).2.1.qrCodes ("s1") = none ∧
    (statusHandler (logoutHandler wstC3 ("s1") (.err ("Logout timeout")) (.ok ())).2.1 ("s1") (.ok true)).1 =
      { code := 200, success := some false, status := some "notLogged",
        connected := some false, qrCode := none, error := none, message := none } :=
  logout_always_purges wstC3 ("s1") 7 (.err ("Logout timeout")) (.ok ()) (.ok true) (by decide)

/-- Claim C4: when the `statusFind` callback reports `authenticated` or
`isLogged`, the transient status becomes `connected` and the cached QR for
the session is deleted, so the next qrcode fetch carries no QR payload. -/
theorem statusFind_auth_clears_qr (session status : String) (ls : ReqLocal)
    (st : ServerState) (isConn : ERes Bool)
    (h : status = "authenticated" ∨ status = "isLogged") :
    (applyEv session (ls, st) (.statusFind status)).1.sessionStatus = "connected" ∧
    mapGet (applyEv session (ls, st) (.statusFind status)).2.qrCodes session = none ∧
    respQrPayload (qrcodeHandler (applyEv session (ls, st) (.statusFind status)).2
        session isConn).1 = none := by
  have hstate : (applyEv session (ls, st) (.statusFind status)).2 =
      { st with qrCodes := mapDel st.qrCodes session } := by
    simp only [applyEv]
    rw [if_pos h]
  have hlocal : (applyEv session (ls, st) (.statusFind status)).1 =
      { ls with sessionStatus := "connected" } := by
    simp only [applyEv]
    rw [if_pos h]
  refine ⟨by rw [hlocal], by rw [hstate]; exact mapGet_del_self _ _, ?_⟩
  rw [hstate]
  exact qrcodeHandler_no_cached _ _ _ (mapGet_del_self _ _)

/-- Concrete state for the C4 witness: a session awaiting pairing with a
cached QR. -/
def wstC4 : ServerState :=
  { clients := [], qrCodes := [(("s1"), ("QR-DATA"))], webhooks := [] }

/-- Witness for C4: a concrete `authenticated` event on a session with a
cached QR clears it and the next qrcode fetch returns no payload. -/
theorem statusFind_auth_clears_qr_witness :
    (applyEv ("s1") (initialLocal, wstC4) (.statusFind ("authenticated"))).1.sessionStatus = "connected" ∧
    mapGet (applyEv ("s1") (initialLocal, wstC4) (.statusFind ("authenticated"))).2.qrCodes ("s1") = none ∧
    respQrPayload (qrcodeHandler (applyEv ("s1") (initialLocal, wstC4)
      (.statusFind ("authenticated"))).2 ("s1") (.ok false)).1 = none :=
  statusFind_auth_clears_qr ("s1") ("authenticated") initialLocal wstC4 (.ok false) (Or.inl rfl)

/-- Claim C5: when the registry holds a handle whose connectivity probe
answers connected, start-session responds `connected` with a null QR and
launches no engine instance; when the probe answers not-connected and a QR
is cached, it responds `qrcode` with that same payload, again launching
nothing. -/
theorem start_existing_session_reuses (st : ServerState) (session : String)
    (webhook : Option String) (c : Client) (q : String)
    (hc : mapGet st.clients session = some c) :
    (startSessionPhaseA st session webhook (.ok true) =
      .responded { code := 200, success := some true, status := some "connected",
                   connected := none, qrCode := some none, error := none,
                   message := some ("Session already connected") } st [.isConnectedQ session] ∧
     countCreate (outcomeCalls (startSessionPhaseA st session webhook (.ok true))) = 0) ∧
    (mapGet st.qrCodes session = some q →
      startSessionPhaseA st session webhook (.ok false) =
        .responded { code := 200, success := some true, status := some "qrcode",
                     connected := none, qrCode := some (some q), error := none,
                     message := some ("Session exists with QR code") } st [.isConnectedQ session] ∧
      countCreate (outcomeCalls (startSessionPhaseA st session webhook (.ok false))) = 0) := by
  constructor
  · constructor <;> simp [startSessionPhaseA, hc, outcomeCalls, countCreate, List.filter]
  · intro hq
    constructor <;> simp [startSessionPhaseA, hc, hq, outcomeCalls, countCreate, List.filter]

/-- Concrete state for the C5 witness: one registered session with a
cached QR. -/
def wstC5 : ServerState :=
  { clients := [(("s1"), 5)], qrCodes := [(("s1"), ("QR-DATA"))], webhooks := [] }

/-- Witness for C5: a concrete registered session, probed connected and
alternatively probed disconnected with a cached QR, is reused without a
new engine launch. -/
theorem start_existing_session_reuses_witness :
    (startSessionPhaseA wstC5 ("s1") none (.ok true) =
      .responded { code := 200, success := some true, status := some "connected",
                   connected := none, qrCode := some none, error := none,
                   message := some ("Session already connected") } wstC5
        [.isConnectedQ ("s1")] ∧
     countCreate (outcomeCalls (startSessionPhaseA wstC5 ("s1") none (.ok true))) = 0) ∧
    (mapGet wstC5.qrCodes ("s1") = some ("QR-DATA") →
      startSessionPhaseA wstC5 ("s1") none (.ok false) =
        .responded { code := 200, success := some true, status := some "qrcode",
                     connected := none, qrCode := some (some ("QR-DATA")), error := none,
                     message := some ("Session exists with QR code") } wstC5
          [.isConnectedQ ("s1")] ∧
      countCreate (outcomeCalls (startSessionPhaseA wstC5 ("s1") none (.ok false))) = 0) :=
  start_existing_session_reuses wstC5 ("s1") none 5 ("QR-DATA") (by decide)

/-- Claim C6: for a well-formed sendText request, an unknown session id
yields 404 with no engine call at all, and a known but not-connected
session yields 400 without ever invoking the engine's sendText
capability (only the connectivity probe ran). -/
theorem sendText_guard_responses (st : ServerState) (session p msgBody : String)
    (isConn : ERes Bool) (sendRes : ERes Unit)
    (hp : p ≠ "") (hm : msgBody ≠ "") :
    (mapGet st.clients session = none →
      sendTextHandler st session (some p) (some msgBody) isConn sendRes =
        ({ code := 404, success := some false, status := none, connected := none,
           qrCode := none, error := some ("Session not found"), message := none },
         st, [])) ∧
    (∀ c : Client, mapGet st.clients session = some c →
      sendTextHandler st session (some p) (some msgBody) (.ok false) sendRes =
        ({ code := 400, success := some false, status := none, connected := none,
           qrCode := none, error := some ("Session not connected"), message := none },
         st, [.isConnectedQ session])) := by
  constructor
  · intro hmiss
    simp [sendTextHandler, hp, hm, hmiss]
  · intro c hc
    simp [sendTextHandler, hp, hm, hc]

/-- Concrete state for the C6 witness: one registered (other) session. -/
def wstC6 : ServerState :=
  { clients := [(("known"), 3)], qrCodes := [], webhooks := [] }

/-- Witness for C6: concrete well-formed requests against an unknown and
against a disconnected session. -/
theorem sendText_guard_responses_witness :
    (mapGet wstC6.clients ("unknown") = none →
      sendTextHandler wstC6 ("unknown") (some ("5511999999999")) (some ("hello"))
          (.ok true) (.ok ()) =
        ({ code := 404, success := some false, status := none, connected := none,
           qrCode := none, error := some ("Session not found"), message := none },
         wstC6, [])) ∧
    (∀ c : Client, mapGet wstC6.clients ("unknown") = some c →
      sendTextHandler wstC6 ("unknown") (some ("5511999999999")) (some ("hello"))
          (.ok false) (.ok ()) =
        ({ code := 400, success := some false, status := none, connected := none,
           qrCode := none, error := some ("Session not connected"), message := none },
         wstC6, [.isConnectedQ ("unknown")])) :=
  sendText_guard_responses wstC6 ("unknown") ("5511999999999") ("hello") (.ok true) (.ok ())
    (by decide) (by decide)

/-- Claim C7: a status query for an id absent from the registry answers
`{success: false, status: notLogged, connected: false}`; for a present id
whose connectivity check throws or exceeds the 5 s timeout it answers
status `error` with `connected: false`, and the handler leaves the
registries untouched (the returned state is the input state). -/
theorem status_miss_and_engine_error (st : ServerState) (session emsg : String)
    (isConn : ERes Bool) :
    (mapGet st.clients session = none →
      statusHandler st session isConn =
        ({ code := 200, success := some false, status := some "notLogged",
           connected := some false, qrCode := none, error := none, message := none },
         st, [])) ∧
    (∀ c : Client, mapGet st.clients session = some c →
      statusHandler st session (.err emsg) =
        ({ code := 200, success := some false, status := some "error",
           connected := some false, qrCode := none, error := some emsg, message := none },
         st, [.isConnectedQ session])) := by
  constructor
  · intro hmiss
    simp [statusHandler, hmiss]
  · intro c hc
    simp [statusHandler, hc]

/-- Concrete state for the C7 witness: one registered session. -/
def wstC7 : ServerState :=
  { clients := [(("s1"), 4)], qrCodes := [], webhooks := [] }

/-- Witness for C7: a concrete registry miss and a concrete timed-out
connectivity check. -/
theorem status_miss_and_engine_error_witness :
    (statusHandler emptyState ("unknown-id") (.ok true) =
      ({ code := 200, success := some false, status := some "notLogged",
         connected := some false, qrCode := none, error := none, message := none },
       emptyState, [])) ∧
    (statusHandler wstC7 ("s1") (.err ("Timeout")) =
      ({ code := 200, success := some false, status := some "error",
         connected := some false, qrCode := none, error := some ("Timeout"), message := none },
       wstC7, [.isConnectedQ ("s1")])) :=
  ⟨(status_miss_and_engine_error emptyState ("unknown-id") ("Timeout") (.ok true)).1 (by decide),
   (status_miss_and_engine_error wstC7 ("s1") ("Timeout") (.ok true)).2 4 (by decide)⟩

/-- Claim C9: when the registry has a handle whose connectivity probe
throws, the qrcode endpoint swallows the error and still answers from the
QR cache — the cached payload with status `qrcode` when present, a 404
otherwise — and never a 500. -/
theorem qrcode_swallows_probe_error (st : ServerState) (session emsg : String) (c : Client)
    (hc : mapGet st.clients session = some c) :
    (qrcodeHandler st session (.err emsg)).1 = qrAnswer (mapGet st.qrCodes session) ∧
    (qrcodeHandler st session (.err emsg)).1.code ≠ 500 ∧
    (∀ q, mapGet st.qrCodes session = some q →
      (qrcodeHandler st session (.err emsg)).1 =
        { code := 200, success := some true, status := some "qrcode", connected := some false,
          qrCode := some (some q), error := none, message := none }) ∧
    (mapGet st.qrCodes session = none → (qrcodeHandler st session (.err emsg)).1.code = 404) := by
  have hmain : (qrcodeHandler st session (.err emsg)).1 = qrAnswer (mapGet st.qrCodes session) := by
    simp [qrcodeHandler, hc]
  refine ⟨hmain, ?_, ?_, ?_⟩
  · rw [hmain]
    cases hq : mapGet st.qrCodes session <;> simp [qrAnswer]
  · intro q hq
    rw [hmain, hq]
    simp [qrAnswer]
  · intro hq
    rw [hmain, hq]
    simp [qrAnswer]

/-- Concrete state for the C9 witness: one registered session with a
cached QR. -/
def wstC9 : ServerState :=
  { clients := [(("s1"), 6)], qrCodes := [(("s1"), ("QR-DATA"))], webhooks := [] }

/-- Witness for C9: a concrete session whose probe throws still returns
its cached QR with status `qrcode`, not a 500. -/
theorem qrcode_swallows_probe_error_witness :
    (qrcodeHandler wstC9 ("s1") (.err ("Protocol error"))).1 =
      qrAnswer (mapGet wstC9.qrCodes ("s1")) ∧
    (qrcodeHandler wstC9 ("s1") (.err ("Protocol error"))).1.code ≠ 500 ∧
    (∀ q, mapGet wstC9.qrCodes ("s1") = some q →
      (qrcodeHandler wstC9 ("s1") (.err ("Protocol error"))).1 =
        { code := 200, success := some true, status := some "qrcode", connected := some false,
          qrCode := some (some q), error := none, message := none }) ∧
    (mapGet wstC9.qrCodes ("s1") = none →
      (qrcodeHandler wstC9 ("s1") (.err ("Protocol error"))).1.code = 404) :=
  qrcode_swallows_probe_error wstC9 ("s1") ("Protocol error") 6 (by decide)

/-- Claim C10: the root and health routes are registered without the
`authenticate` middleware — their handlers run for any (even absent or
wrong) credential and answer 200 with a JSON status body — while every
session-scoped route carries the middleware. -/
theorem open_routes_no_auth :
    (∀ (key : Option String) (apiKey : String), handlerRuns routeRoot key apiKey = true) ∧
    (∀ (key : Option String) (apiKey : String), handlerRuns routeHealth key apiKey = true) ∧
    rootHandler.code = 200 ∧ rootHandler.status = some "online" ∧
    healthHandler.code = 200 ∧ healthHandler.status = some "healthy" ∧
    routeRoot ∈ routes ∧ routeHealth ∈ routes ∧
    routes.all (fun r => !sessionScoped r || r.usesAuthenticate) = true := by
  refine ⟨fun key apiKey => rfl, fun key apiKey => rfl, rfl, rfl, rfl, rfl, ?_, ?_, by decide⟩
  · simp [routes]
  · simp [routes]

/-- Claim C1 is refuted by the code: the duplicate-creation guard is
`clients.has(session)`, but the registry is only populated when the
creation promise resolves (`createClientPromise.then(client =>
clients.set(session, client))`).  In the concrete trace below, the first
`start-session("acct1")` on an empty registry launches a creation
(one `createEngine`), the in-flight engine emits its QR (`catchQR`, which
caches the payload), and — with the creation promise still unresolved, so
the registry still has no entry — a second `start-session("acct1")` again
takes the registry-miss path: it launches a second engine instance
(`isLaunched`, a second `createEngine`) instead of responding with the
first call's in-progress QR or status. -/
theorem start_inflight_duplicate_launch :
    (isLaunched (startSessionPhaseA emptyState ("acct1") none (.ok false)) = true ∧
     countCreate (outcomeCalls (startSessionPhaseA emptyState ("acct1") none (.ok false))) = 1) ∧
    (isLaunched (startSessionPhaseA
        (applyEv ("acct1")
          (initialLocal, outcomeState (startSessionPhaseA emptyState ("acct1") none (.ok false)))
          (.catchQR ("QR-1"))).2
        ("acct1") none (.ok false)) = true ∧
     countCreate (outcomeCalls (startSessionPhaseA
        (applyEv ("acct1")
          (initialLocal, outcomeState (startSessionPhaseA emptyState ("acct1") none (.ok false)))
          (.catchQR ("QR-1"))).2
        ("acct1") none (.ok false))) = 1) := by
  decide

/-- Claim C1 amended: the duplicate-creation guard takes effect only once
the first call's creation promise has resolved and `clients.set` has run —
from that point a start-session call for the id (with the engine reporting
connected) responds with status `connected` and launches no second engine
instance. -/
theorem start_after_resolution_no_duplicate (st : ServerState) (session : String)
    (handle : Client) (webhook : Option String) :
    startSessionPhaseA (applyEv session (initialLocal, st) (.resolve handle)).2
        session webhook (.ok true) =
      .responded { code := 200, success := some true, status := some "connected",
                   connected := none, qrCode := some none, error := none,
                   message := some ("Session already connected") }
        (applyEv session (initialLocal, st) (.resolve handle)).2
        [.isConnectedQ session] ∧
    countCreate (outcomeCalls (startSessionPhaseA
        (applyEv session (initialLocal, st) (.resolve handle)).2
        session webhook (.ok true))) = 0 := by
  have h : mapGet (applyEv session (initialLocal, st) (.resolve handle)).2.clients
      session = some handle := by
    simp only [applyEv]
    exact mapGet_set_self _ _ _
  constructor
  · simp [startSessionPhaseA, h]
  · simp [startSessionPhaseA, h, outcomeCalls, countCreate, List.filter]

/-- Claim C8: with `waitQrCode` set and an engine that produces neither a
QR nor a rejection within the window, the handler sleeps through all
60 polls of 500 ms (the 30 s ceiling), answers 500 with the QR-timeout
error, and launched exactly one engine creation; the creation is not
cancelled — a later resolution still registers the handle with the
registry the response left behind. -/
theorem qr_wait_timeout_keeps_creation (st : ServerState) (session : String)
    (webhook : Option String) (events : Nat → List CreateEv) (handle : Client)
    (hmiss : mapGet st.clients session = none)
    (hquiet : ∀ k, k < qrMaxPolls → events k = []) :
    (startSessionExec st session webhook true (.ok false) events).1.code = 500 ∧
    (startSessionExec st session webhook true (.ok false) events).1.error =
      some ("QR code generation timeout - the server may be overloaded, please try again") ∧
    (startSessionExec st session webhook true (.ok false) events).2.2.2 = qrMaxPolls ∧
    countCreate (startSessionExec st session webhook true (.ok false) events).2.2.1 = 1 ∧
    mapGet (applyEv session
        (initialLocal, (startSessionExec st session webhook true (.ok false) events).2.1)
        (.resolve handle)).2.clients session = some handle := by
  have hA : startSessionPhaseA st session webhook (.ok false) =
      .launched (registerWebhook st session webhook) [.createEngine session] := by
    unfold startSessionPhaseA
    rw [hmiss]
  have hloop : qrWaitLoop session events 0 qrMaxPolls
      (initialLocal, registerWebhook st session webhook) =
      (qrMaxPolls, initialLocal, registerWebhook st session webhook) := by
    have hq := qrWaitLoop_quiet session events qrMaxPolls 0 initialLocal
      (registerWebhook st session webhook) rfl rfl
      (fun k h1 h2 => hquiet k (by omega))
    simpa using hq
  have hexec : startSessionExec st session webhook true (.ok false) events =
      ({ code := 500, success := some false, status := none, connected := none,
         qrCode := none,
         error := some ("QR code generation timeout - the server may be overloaded, please try again"),
         message := none },
       { clients := mapDel (registerWebhook st session webhook).clients session,
         qrCodes := mapDel (registerWebhook st session webhook).qrCodes session,
         webhooks := (registerWebhook st session webhook).webhooks },
       [.createEngine session], qrMaxPolls) := by
    unfold startSessionExec
    rw [hA]
    simp only [if_true, hloop]
    rfl
  rw [hexec]
  refine ⟨rfl, rfl, rfl, rfl, ?_⟩
  simp only [applyEv]
  exact mapGet_set_self _ _ _

/-- Witness for C8: a fresh session on an empty registry with a silent
engine times out after 60 polls, and a late resolution still lands in the
registry. -/
theorem qr_wait_timeout_keeps_creation_witness :
    (startSessionExec emptyState ("acct2") none true (.ok false) (fun _ => [])).1.code = 500 ∧
    (startSessionExec emptyState ("acct2") none true (.ok false) (fun _ => [])).1.error =
      some ("QR code generation timeout - the server may be overloaded, please try again") ∧
    (startSessionExec emptyState ("acct2") none true (.ok false) (fun _ => [])).2.2.2 = qrMaxPolls ∧
    countCreate (startSessionExec emptyState ("acct2") none true (.ok false) (fun _ => [])).2.2.1 = 1 ∧
    mapGet (applyEv ("acct2")
      (initialLocal, (startSessionExec emptyState ("acct2") none true (.ok false) (fun _ => [])).2.1)
      (.resolve 9)).2.clients ("acct2") = some 9 :=
  qr_wait_timeout_keeps_creation emptyState ("acct2") none (fun _ => []) 9 rfl (fun _ _ => rfl)

end DivusWhatsapp
